import Mathlib

/-!
# Verification of `commitlint.py`

A shallow embedding of the single-file commit-message linter
`commitlint.py` (version 24.11.0).  Python strings are modelled as
`String`/`List Char` over the ASCII fragment, with `'\n'` as the line
separator.  Python operations that can raise (`list[0]` on an empty
list, `s[-1]` on an empty string, `sys.argv[1]` with no argument, and a
string method called on a function object) are modelled with
`Except PyErr`.

Each rule check is translated directly from its Python source; `main_run`
reproduces the body of `main()`, including the fact that the third
through seventh checks are called with the function object `commit_msg`
instead of the retrieved message.
-/

set_option autoImplicit false

deriving instance DecidableEq for Except

namespace Commitlint

/-- Errors a Python expression in this program can raise: `IndexError`
from indexing an empty sequence, `AttributeError` from calling a string
method on a function object. -/
inductive PyErr where
  | indexError : PyErr
  | attributeError : PyErr
deriving DecidableEq, Repr

/-- Python `str.isspace` characters restricted to ASCII: the characters
`str.strip()` and `str.split()` treat as whitespace. -/
def isPySpace (c : Char) : Bool :=
  c = ' ' || c = '\t' || c = '\n' || c = '\r' || c = '\x0b' || c = '\x0c'

/-- Split a character list at every character satisfying `p`, keeping
empty segments (the behaviour of Python `str.split(sep)`). -/
def splitP (p : Char → Bool) : List Char → List (List Char)
  | [] => [[]]
  | c :: cs =>
    if p c then [] :: splitP p cs
    else
      match splitP p cs with
      | [] => [[c]]
      | x :: xs => (c :: x) :: xs

/-- Python `str.splitlines()` over `'\n'`-separated text: split at every
newline and drop the final segment when it is empty (so a trailing
newline adds no line, and the empty string has no lines). -/
def pyLines (s : List Char) : List (List Char) :=
  let parts := splitP (fun c => c = '\n') s
  if parts.getLast? = some [] then parts.dropLast else parts

/-- Python `str.strip()`: remove leading and trailing whitespace. -/
def pyStrip (l : List Char) : List Char :=
  ((l.dropWhile isPySpace).reverse.dropWhile isPySpace).reverse

/-- Python `str.split()` with no argument: whitespace-delimited tokens,
empty segments discarded. -/
def pyTokens (l : List Char) : List (List Char) :=
  (splitP isPySpace l).filter (fun t => !t.isEmpty)

/-- Python `s.split(":")[-1]`: the segment after the last colon, or the
whole string when no colon is present. -/
def afterLastColon (l : List Char) : List Char :=
  (l.reverse.takeWhile (fun c => c ≠ ':')).reverse

/-- Character-list version of `startswith`. -/
def beginsWith : List Char → List Char → Bool
  | [], _ => true
  | _ :: _, [] => false
  | p :: ps, c :: cs => (p = c) && beginsWith ps cs

/-- Python `str.islower()` over ASCII: at least one cased (alphabetic)
character and no uppercase character. -/
def pyIsLower (l : List Char) : Bool :=
  l.any (fun c => c.isAlpha) && !l.any (fun c => c.isUpper)

/-- The tuple `conventional_commit_type` from `header_type`. -/
def conventionalCommitType : List String :=
  ["build:", "chore:", "ci:", "docs:", "feat:", "fix:",
   "perf:", "refactor:", "revert:", "style:", "test:"]

/-- Python `commit_type.startswith(tuple(conventional_commit_type))`. -/
def startsWithAllowed (t : List Char) : Bool :=
  conventionalCommitType.any (fun p => beginsWith p.data t)

/-- Rule `header_type`: `commit_type = commit_message.split()[0]`;
violation when the token does not start with an allowed literal.
`split()[0]` raises `IndexError` when the message has no token. -/
def header_type (commit_message : String) : Except PyErr Bool :=
  match pyTokens commit_message.data with
  | [] => .error .indexError
  | commit_type :: _ => .ok (!startsWithAllowed commit_type)

/-- Rule `subject_empty`: header is `splitlines()[0].strip()`, subject is
`header.split(":")[-1]`; violation when the header has no colon or the
subject is the empty string.  `splitlines()[0]` raises `IndexError` on
the empty message. -/
def subject_empty (commit_message : String) : Except PyErr Bool :=
  match pyLines commit_message.data with
  | [] => .error .indexError
  | line :: _ =>
    let commit_header := pyStrip line
    let commit_subject := afterLastColon commit_header
    .ok (!commit_header.any (fun c => c = ':') || commit_subject.isEmpty)

/-- Rule `subject_length`: violation when the stripped header is longer
than 100 characters. -/
def subject_length (commit_message : String) : Except PyErr Bool :=
  match pyLines commit_message.data with
  | [] => .error .indexError
  | line :: _ => .ok (decide ((pyStrip line).length > 100))

/-- Rule `subject_case`: violation when `commit_subject.islower()` is
false. -/
def subject_case (commit_message : String) : Except PyErr Bool :=
  match pyLines commit_message.data with
  | [] => .error .indexError
  | line :: _ => .ok (!pyIsLower (afterLastColon (pyStrip line)))

/-- Rule `subject_full_stop`: violation when the last character of the
stripped header is not alphabetic.  `commit_header[-1]` raises
`IndexError` when the stripped header is empty. -/
def subject_full_stop (commit_message : String) : Except PyErr Bool :=
  match pyLines commit_message.data with
  | [] => .error .indexError
  | line :: _ =>
    match (pyStrip line).reverse with
    | [] => .error .indexError
    | c :: _ => .ok (!c.isAlpha)

/-- Rule `body_leading_blank`: the loop fires only at the second line;
violation when a second line exists and is non-blank after stripping.
Falling off the loop returns Python `None`, modelled as `false`. -/
def body_leading_blank (commit_message : String) : Except PyErr Bool :=
  .ok (match (pyLines commit_message.data).drop 1 with
       | [] => false
       | line :: _ => !(pyStrip line).isEmpty)

/-- Rule `body_max_length`: violation when some line from the third
onward is longer than 100 characters (line length taken unstripped). -/
def body_max_length (commit_message : String) : Except PyErr Bool :=
  .ok (((pyLines commit_message.data).drop 2).any (fun line => decide (line.length > 100)))

/-- An argument passed to a rule check in `main()`: either the retrieved
commit-message string, or the function object `commit_msg` (which
`main()` passes to the last five checks). -/
inductive PyArg where
  | str : String → PyArg
  | funcRef : PyArg

/-- Apply a rule check to a `PyArg`.  Every check begins with a string
method call (`split`/`splitlines`), so on the function object the call
raises `AttributeError` at once. -/
def applyCheck (check : String → Except PyErr Bool) : PyArg → Except PyErr Bool
  | .str s => check s
  | .funcRef => .error .attributeError

/-- Python truthiness of a check result as an error-count contribution. -/
def toCount (b : Bool) : Nat := if b then 1 else 0

/-- Exit-status mapping of `main()` (lines 175-182): `sys.exit(1)` when
`error_count > 0`, else `sys.exit(0)`. -/
def main_exit_code (error_count : Nat) : Nat :=
  if error_count > 0 then 1 else 0

/-- Body of `main()` after the message has been retrieved: run the seven
checks in order — the first two on the message string, the remaining
five on the function object `commit_msg` — sum the violation flags and
produce `(error_count, exit status)`. -/
def main_run (last_commit : String) : Except PyErr (Nat × Nat) := do
  let b1 ← applyCheck header_type (.str last_commit)
  let b2 ← applyCheck subject_empty (.str last_commit)
  let b3 ← applyCheck subject_length .funcRef
  let b4 ← applyCheck subject_case .funcRef
  let b5 ← applyCheck subject_full_stop .funcRef
  let b6 ← applyCheck body_leading_blank .funcRef
  let b7 ← applyCheck body_max_length .funcRef
  let error_count := toCount b1 + toCount b2 + toCount b3 + toCount b4 +
    toCount b5 + toCount b6 + toCount b7
  pure (error_count, main_exit_code error_count)

/-- Evaluation of `sys.argv[1]` in `main()` given the arguments after
the script name: raises `IndexError` when no path argument was given. -/
def main_commit_path (argv_tail : List String) : Except PyErr String :=
  match argv_tail with
  | [] => .error .indexError
  | p :: _ => .ok p

/-- Default value of the `path` parameter of `commit_msg` (unused by
`main`, which always indexes `sys.argv[1]`). -/
def commit_msg_default_path : String := "."

/-- Whether a check returned a flag (rather than raising). -/
def isOkB : Except PyErr Bool → Bool
  | .ok _ => true
  | .error _ => false

/-! ## Helper lemmas about the string primitives -/

theorem head?_some_cons {α : Type} (l : List α) (x : α) (h : l.head? = some x) :
    ∃ t, l = x :: t := by
  cases l with
  | nil => cases h
  | cons a t =>
    simp only [List.head?] at h
    cases h
    exact ⟨t, rfl⟩

theorem dropWhile_head?_false {p : Char → Bool} :
    ∀ (l : List Char) (c : Char), (l.dropWhile p).head? = some c → p c = false := by
  intro l
  induction l with
  | nil => intro c h; cases h
  | cons a t ih =>
    intro c h
    rw [List.dropWhile_cons] at h
    by_cases hp : p a
    · rw [if_pos hp] at h
      exact ih c h
    · rw [if_neg hp] at h
      simp only [List.head?] at h
      cases h
      exact Bool.eq_false_iff.mpr hp

theorem takeWhile_head? {p : Char → Bool} (l : List Char) (c : Char) (t : List Char)
    (h : l.takeWhile p = c :: t) : l.head? = some c := by
  cases l with
  | nil => simp [List.takeWhile] at h
  | cons a s =>
    rw [List.takeWhile_cons] at h
    by_cases hp : p a
    · rw [if_pos hp] at h
      injection h with h1 _
      simp [h1]
    · rw [if_neg hp] at h
      cases h

theorem pyStrip_last_not_space (l : List Char) (c : Char)
    (h : (pyStrip l).reverse.head? = some c) : isPySpace c = false := by
  unfold pyStrip at h
  rw [List.reverse_reverse] at h
  exact dropWhile_head?_false _ _ h

theorem afterLastColon_last (l : List Char) (c : Char)
    (h : (afterLastColon l).reverse.head? = some c) : l.reverse.head? = some c := by
  unfold afterLastColon at h
  rw [List.reverse_reverse] at h
  cases e : l.reverse.takeWhile (fun c => c ≠ ':') with
  | nil => rw [e] at h; cases h
  | cons a t =>
    rw [e] at h
    simp only [List.head?] at h
    cases h
    exact takeWhile_head? _ _ _ e

theorem pyStrip_nil_all_space (l : List Char) (h : pyStrip l = []) :
    ∀ c ∈ l, isPySpace c = true := by
  unfold pyStrip at h
  rw [List.reverse_eq_nil_iff, List.dropWhile_eq_nil_iff] at h
  intro c hc
  have hsplit := List.takeWhile_append_dropWhile (p := isPySpace) (l := l)
  rw [← hsplit] at hc
  rcases List.mem_append.mp hc with h1 | h2
  · exact List.mem_takeWhile_imp h1
  · exact h c (List.mem_reverse.mpr h2)

/-- The subject extracted from a stripped header is empty exactly when
its own strip is empty: a non-empty subject inherits the header's last
character, which is non-whitespace. -/
theorem stripAfterColon_nil (l : List Char) :
    pyStrip (afterLastColon (pyStrip l)) = [] ↔ afterLastColon (pyStrip l) = [] := by
  constructor
  · intro h
    by_contra hne
    cases e : (afterLastColon (pyStrip l)).reverse with
    | nil => exact hne (by rwa [List.reverse_eq_nil_iff] at e)
    | cons c cs =>
      have hc : (afterLastColon (pyStrip l)).reverse.head? = some c := by rw [e]; rfl
      have h1 : (pyStrip l).reverse.head? = some c := afterLastColon_last _ _ hc
      have h2 : isPySpace c = false := pyStrip_last_not_space _ _ h1
      have h3 : c ∈ afterLastColon (pyStrip l) := by
        have hm : c ∈ (afterLastColon (pyStrip l)).reverse := by
          rw [e]; exact List.mem_cons_self _ _
        exact List.mem_reverse.mp hm
      have h4 := pyStrip_nil_all_space _ h c h3
      rw [h4] at h2
      cases h2
  · intro h
    rw [h]
    rfl

/-! ## Claim theorems -/

/-- C1: the claim says a run on a valid message completes with violation
count 0 and exit status 0, every check receiving the full message text.
In the code, `main()` passes the function object `commit_msg` to the
last five checks, so on the valid message
`"fix: correct off-by-one error"` the run raises `AttributeError`
inside `subject_length` instead of completing. -/
theorem c1_main_crashes_on_valid_message :
    main_run "fix: correct off-by-one error\n" = Except.error PyErr.attributeError := by
  decide

/-- C3: the claim says the exit status is 0 when the violation count is
0 and 1 when it is positive.  The aggregation step of `main()` (lines
175-182) does map a count of 0 to exit 0 and a positive count to exit 1,
but the run never reaches it: on any message (here `"feat: add new
option"`, which has no violations) `main()` raises `AttributeError`
first, so the process never exits with status 0. -/
theorem c3_exit_mapping_unreachable :
    main_run "feat: add new option\n" = Except.error PyErr.attributeError ∧
    (∀ n : Nat, (main_exit_code n = 0 ↔ n = 0)) ∧
    (∀ n : Nat, 0 < n → main_exit_code n = 1) := by
  refine ⟨by decide, ?_, ?_⟩
  · intro n
    unfold main_exit_code
    cases n with
    | zero => simp
    | succ k => simp
  · intro n hn
    unfold main_exit_code
    rw [if_pos hn]

theorem c3_exit_mapping_unreachable_witness : main_exit_code 3 = 1 :=
  c3_exit_mapping_unreachable.2.2 3 (by decide)

/-- C7: the claim says an omitted path argument defaults to the current
working directory.  `commit_msg` does carry the default `"."`, but
`main()` never uses it: it evaluates `sys.argv[1]`, which raises
`IndexError` when no argument was given. -/
theorem c7_no_path_argument :
    main_commit_path [] = Except.error PyErr.indexError ∧
    (∀ (p : String) (rest : List String), main_commit_path (p :: rest) = Except.ok p) ∧
    commit_msg_default_path = "." :=
  ⟨rfl, fun _ _ => rfl, rfl⟩

/-- C9: `header_type` depends only on the first whitespace-delimited
token of the entire message text, and on a message whose first line is
blank the token comes from a later line, so the check can pass despite a
blank header. -/
theorem c9_header_type_token_of_whole_message :
    (∀ m1 m2 : String, (pyTokens m1.data).head? = (pyTokens m2.data).head? →
      header_type m1 = header_type m2) ∧
    (header_type "\nfix: change from later line" = Except.ok false ∧
      (pyLines ("\nfix: change from later line").data).head? = some []) := by
  refine ⟨?_, by decide, by decide⟩
  intro m1 m2 h
  unfold header_type
  cases e1 : pyTokens m1.data <;> cases e2 : pyTokens m2.data <;>
    rw [e1, e2] at h <;> simp_all

theorem c9_header_type_token_of_whole_message_witness :
    header_type "fix: a\nb" = header_type "fix: a b" :=
  c9_header_type_token_of_whole_message.1 _ _ (by decide)

/-- C10: evaluation is a deterministic function of the message string:
two runs of `main()`'s evaluation on equal input strings produce equal
results (equal violation counts and exit statuses when they complete,
and equal raised errors otherwise). -/
theorem c10_deterministic (m1 m2 : String) (h : m1 = m2) :
    main_run m1 = main_run m2 := by
  rw [h]

theorem c10_deterministic_witness :
    main_run "fix: correct something" = main_run "fix: correct something" :=
  c10_deterministic _ _ rfl

/-- C4 counterexample: the claim ties the check to the first token of
the header.  On `"\nfix: some message"` the header (first line) is
blank, so no token of the header starts with an allowed literal — the
claim then demands a violation — yet the check reports none, because it
takes its token from the whole message text. -/
theorem c4_counterexample :
    header_type "\nfix: some message" = Except.ok false ∧
    pyTokens ((pyLines ("\nfix: some message").data).headD []) = [] := by
  constructor
  · decide
  · decide

/-- C4 (amended): for every message with at least one whitespace-
delimited token, `header_type` flags a violation iff the first token of
the entire message does not start with one of the eleven allowed
literals. -/
theorem c4_header_type_iff (msg : String) (t : List Char)
    (h : (pyTokens msg.data).head? = some t) :
    header_type msg = Except.ok true ↔ startsWithAllowed t = false := by
  obtain ⟨ts, e⟩ := head?_some_cons _ _ h
  unfold header_type
  rw [e]
  constructor
  · intro hok
    injection hok with hb
    rwa [Bool.not_eq_true'] at hb
  · intro hf
    show Except.ok (!startsWithAllowed t) = Except.ok true
    rw [hf]
    rfl

/-- C4 witness: the scoped token `fix(scope):` starts with none of the
eleven literals, so it is flagged. -/
theorem c4_header_type_iff_witness :
    header_type "fix(scope): some message" = Except.ok true :=
  (c4_header_type_iff _ (("fix(scope):").data) (by decide)).mpr (by decide)

/-- C8: a message with exactly one line produces no violation from
either body check (a missing second or third line is treated as "no
violation", not as an error). -/
theorem c8_single_line_no_body_violation (msg : String)
    (h : (pyLines msg.data).length = 1) :
    body_leading_blank msg = Except.ok false ∧ body_max_length msg = Except.ok false := by
  cases e : pyLines msg.data with
  | nil => rw [e] at h; cases h
  | cons a as =>
    rw [e, List.length_cons] at h
    have has : as = [] := List.length_eq_zero.mp (by omega)
    subst has
    unfold body_leading_blank body_max_length
    rw [e]
    exact ⟨rfl, rfl⟩

theorem c8_single_line_no_body_violation_witness :
    body_leading_blank "fix: correct spacing" = Except.ok false ∧
    body_max_length "fix: correct spacing" = Except.ok false :=
  c8_single_line_no_body_violation _ (by decide)

/-- C2 counterexample: the claim says every check returns a flag on
every input string, including the empty and whitespace-only strings.  On
the empty string the five header/subject checks raise `IndexError`
(`split()[0]` / `splitlines()[0]`), `header_type` also raises on a
whitespace-only message, and `subject_full_stop` raises on a message
whose first line is whitespace-only (`commit_header[-1]` on an empty
string). -/
theorem c2_counterexample :
    header_type "" = Except.error PyErr.indexError ∧
    subject_empty "" = Except.error PyErr.indexError ∧
    subject_length "" = Except.error PyErr.indexError ∧
    subject_case "" = Except.error PyErr.indexError ∧
    subject_full_stop "" = Except.error PyErr.indexError ∧
    header_type "   " = Except.error PyErr.indexError ∧
    subject_full_stop " \n" = Except.error PyErr.indexError :=
  ⟨by decide, by decide, by decide, by decide, by decide, by decide, by decide⟩

/-- C2 (amended): exact totality profile of the seven checks.
`header_type` returns a flag iff the message has a whitespace-delimited
token; `subject_empty`, `subject_length` and `subject_case` return a
flag iff the message has a first line (is non-empty); `subject_full_stop`
additionally requires the stripped first line to be non-empty; the two
body checks always return a flag.  In particular every check returns a
flag on a single word with no colon and on a message whose subject after
the last colon is empty. -/
theorem c2_totality_profile (msg : String) :
    isOkB (header_type msg) = !(pyTokens msg.data).isEmpty ∧
    isOkB (subject_empty msg) = !(pyLines msg.data).isEmpty ∧
    isOkB (subject_length msg) = !(pyLines msg.data).isEmpty ∧
    isOkB (subject_case msg) = !(pyLines msg.data).isEmpty ∧
    isOkB (subject_full_stop msg) =
      (!(pyLines msg.data).isEmpty && !(pyStrip ((pyLines msg.data).headD [])).isEmpty) ∧
    isOkB (body_leading_blank msg) = true ∧
    isOkB (body_max_length msg) = true := by
  refine ⟨?_, ?_, ?_, ?_, ?_, rfl, rfl⟩
  · unfold header_type
    cases e : pyTokens msg.data <;> rfl
  · unfold subject_empty
    cases e : pyLines msg.data <;> rfl
  · unfold subject_length
    cases e : pyLines msg.data <;> rfl
  · unfold subject_case
    cases e : pyLines msg.data <;> rfl
  · unfold subject_full_stop
    cases e : pyLines msg.data with
    | nil => rfl
    | cons line rest =>
      show isOkB (match (pyStrip line).reverse with
          | [] => Except.error PyErr.indexError
          | c :: _ => Except.ok (!c.isAlpha)) =
        (!(List.isEmpty (line :: rest)) && !(pyStrip line).isEmpty)
      cases e2 : (pyStrip line).reverse with
      | nil =>
        have h0 : pyStrip line = [] := by rwa [List.reverse_eq_nil_iff] at e2
        rw [h0]
        rfl
      | cons c cs =>
        cases hp : pyStrip line with
        | nil => rw [hp] at e2; simp at e2
        | cons a b => rfl

/-- C5 counterexample: the claim says `subject_case` flags a violation
iff the subject contains an uppercase letter.  On `"fix: 123"` the
subject `" 123"` contains no uppercase letter, yet the check flags a
violation, because Python `islower()` is also false on a string with no
cased character at all. -/
theorem c5_counterexample :
    subject_case "fix: 123" = Except.ok true ∧
    afterLastColon (pyStrip (("fix: 123").data)) = (" 123").data ∧
    (" 123").data.any (fun c => c.isUpper) = false :=
  ⟨by decide, by decide, by decide⟩

/-- C5 (amended): for every message with a header, `subject_case` flags
a violation iff the substring of the header after the last colon
contains an uppercase letter or contains no alphabetic character at
all. -/
theorem c5_subject_case_iff (msg : String) (line : List Char)
    (h : (pyLines msg.data).head? = some line) :
    subject_case msg = Except.ok true ↔
      ((afterLastColon (pyStrip line)).any (fun c => c.isUpper) = true ∨
       (afterLastColon (pyStrip line)).any (fun c => c.isAlpha) = false) := by
  obtain ⟨rest, e⟩ := head?_some_cons _ _ h
  unfold subject_case
  rw [e]
  show Except.ok (!pyIsLower (afterLastColon (pyStrip line))) = Except.ok true ↔
      ((afterLastColon (pyStrip line)).any (fun c => c.isUpper) = true ∨
       (afterLastColon (pyStrip line)).any (fun c => c.isAlpha) = false)
  cases hA : (afterLastColon (pyStrip line)).any (fun c => c.isAlpha) <;>
    cases hU : (afterLastColon (pyStrip line)).any (fun c => c.isUpper) <;>
      simp [pyIsLower, hA, hU]

theorem c5_subject_case_iff_witness : subject_case "fix: Some Message" = Except.ok true :=
  (c5_subject_case_iff _ (("fix: Some Message").data) (by decide)).mpr (Or.inl (by decide))

/-- C6: for every message with a non-empty first line, `subject_empty`
flags a violation iff the stripped header contains no colon or the
substring after the last colon is empty after stripping.  (Because the
header is stripped first, the subject is empty exactly when it is empty
after stripping, so the code's unstripped emptiness test agrees with the
claim.) -/
theorem c6_subject_empty_iff (msg : String) (line : List Char)
    (h : (pyLines msg.data).head? = some line) (_hne : line ≠ []) :
    subject_empty msg = Except.ok true ↔
      ((pyStrip line).any (fun c => c = ':') = false ∨
       pyStrip (afterLastColon (pyStrip line)) = []) := by
  obtain ⟨rest, e⟩ := head?_some_cons _ _ h
  unfold subject_empty
  rw [e, stripAfterColon_nil]
  show Except.ok (!(pyStrip line).any (fun c => c = ':') ||
        (afterLastColon (pyStrip line)).isEmpty) = Except.ok true ↔
      ((pyStrip line).any (fun c => c = ':') = false ∨
       afterLastColon (pyStrip line) = [])
  cases hC : (pyStrip line).any (fun c => c = ':') <;>
    cases hE : afterLastColon (pyStrip line) <;> simp [hC, hE]

theorem c6_subject_empty_iff_witness : subject_empty "fix:" = Except.ok true :=
  (c6_subject_empty_iff _ (("fix:").data) (by decide) (by decide)).mpr (Or.inr (by decide))

end Commitlint
